import Mathlib

/-!
Verification development for the prometheus-machine charm.

The embedding mirrors three source files:
  * `lib/prometheus_config.py`  — configuration rendering (`PrometheusConfig`),
  * `lib/prometheus_installer.py` — the systemd/service collaborator surface,
  * `src/charm.py` — event handlers, job collection, and the status probe.

Python dictionaries, lists and scalars are embedded as the `Value` type; a
Python exception is an `Except.error`; `dict.get` with a default is `dictGet`;
iteration over an arbitrary Python value is `pyIter` (lists yield elements,
strings yield one-character strings, dicts yield their keys, everything else
raises `TypeError`).
-/

namespace PrometheusMachine

/-- JSON/YAML-like values, the data Python passes around in the charm. -/
inductive Value where
  | str (s : String)
  | nat (n : Nat)
  | bool (b : Bool)
  | list (xs : List Value)
  | dict (kvs : List (String × Value))

mutual

/-- Structural equality on `Value` (Python `==` on JSON-like data). -/
def valueBeq : Value → Value → Bool
  | Value.str a, Value.str b => a == b
  | Value.nat a, Value.nat b => a == b
  | Value.bool a, Value.bool b => a == b
  | Value.list xs, Value.list ys => valueListBeq xs ys
  | Value.dict xs, Value.dict ys => kvListBeq xs ys
  | _, _ => false

def valueListBeq : List Value → List Value → Bool
  | [], [] => true
  | x :: xs, y :: ys => valueBeq x y && valueListBeq xs ys
  | _, _ => false

def kvListBeq : List (String × Value) → List (String × Value) → Bool
  | [], [] => true
  | (k₁, v₁) :: xs, (k₂, v₂) :: ys => k₁ == k₂ && valueBeq v₁ v₂ && kvListBeq xs ys
  | _, _ => false

end

mutual

theorem valueBeq_eq : (a b : Value) → (valueBeq a b = true ↔ a = b)
  | Value.str _, Value.str _ => by simp [valueBeq]
  | Value.str _, Value.nat _ => by simp [valueBeq]
  | Value.str _, Value.bool _ => by simp [valueBeq]
  | Value.str _, Value.list _ => by simp [valueBeq]
  | Value.str _, Value.dict _ => by simp [valueBeq]
  | Value.nat _, Value.str _ => by simp [valueBeq]
  | Value.nat _, Value.nat _ => by simp [valueBeq]
  | Value.nat _, Value.bool _ => by simp [valueBeq]
  | Value.nat _, Value.list _ => by simp [valueBeq]
  | Value.nat _, Value.dict _ => by simp [valueBeq]
  | Value.bool _, Value.str _ => by simp [valueBeq]
  | Value.bool _, Value.nat _ => by simp [valueBeq]
  | Value.bool _, Value.bool _ => by simp [valueBeq]
  | Value.bool _, Value.list _ => by simp [valueBeq]
  | Value.bool _, Value.dict _ => by simp [valueBeq]
  | Value.list _, Value.str _ => by simp [valueBeq]
  | Value.list _, Value.nat _ => by simp [valueBeq]
  | Value.list _, Value.bool _ => by simp [valueBeq]
  | Value.list xs, Value.list ys => by simp [valueBeq, valueListBeq_eq xs ys]
  | Value.list _, Value.dict _ => by simp [valueBeq]
  | Value.dict _, Value.str _ => by simp [valueBeq]
  | Value.dict _, Value.nat _ => by simp [valueBeq]
  | Value.dict _, Value.bool _ => by simp [valueBeq]
  | Value.dict _, Value.list _ => by simp [valueBeq]
  | Value.dict xs, Value.dict ys => by simp [valueBeq, kvListBeq_eq xs ys]

theorem valueListBeq_eq : (xs ys : List Value) → (valueListBeq xs ys = true ↔ xs = ys)
  | [], [] => by simp [valueListBeq]
  | [], _ :: _ => by simp [valueListBeq]
  | _ :: _, [] => by simp [valueListBeq]
  | x :: xs, y :: ys => by
      simp [valueListBeq, valueBeq_eq x y, valueListBeq_eq xs ys]

theorem kvListBeq_eq : (xs ys : List (String × Value)) → (kvListBeq xs ys = true ↔ xs = ys)
  | [], [] => by simp [kvListBeq]
  | [], _ :: _ => by simp [kvListBeq]
  | _ :: _, [] => by simp [kvListBeq]
  | (k₁, v₁) :: xs, (k₂, v₂) :: ys => by
      simp [kvListBeq, valueBeq_eq v₁ v₂, kvListBeq_eq xs ys, Prod.ext_iff, and_assoc]

end

instance : DecidableEq Value := fun a b => decidable_of_iff _ (valueBeq_eq a b)

/-- First-match association lookup, the semantics of Python `dict[k]` /
`dict.get` on a dict whose keys are unique. -/
def lookupKey (kvs : List (String × Value)) (k : String) : Option Value :=
  match kvs with
  | [] => none
  | (k₁, v) :: rest => if k₁ = k then some v else lookupKey rest k

/-- Python `x.get(k, default)`: succeeds on a dict, raises `AttributeError`
on anything else. -/
def dictGet (v : Value) (k : String) (d : Value) : Except String Value :=
  match v with
  | Value.dict kvs => Except.ok ((lookupKey kvs k).getD d)
  | _ => Except.error "AttributeError"

/-- Python `x.get(k)` (default `None`): `none` models Python's `None`. -/
def dictGetOpt (v : Value) (k : String) : Except String (Option Value) :=
  match v with
  | Value.dict kvs => Except.ok (lookupKey kvs k)
  | _ => Except.error "AttributeError"

/-- Python `k in x` for a dict `x` (only reached in the source after `x` has
already been used as a dict). -/
def dictHas (v : Value) (k : String) : Bool :=
  match v with
  | Value.dict kvs => kvs.any (fun kv => kv.1 = k)
  | _ => false

/-- Python `for y in x`: lists yield their elements, strings their characters,
dicts their keys; other values raise `TypeError`. -/
def pyIter (v : Value) : Except String (List Value) :=
  match v with
  | Value.list xs => Except.ok xs
  | Value.str s => Except.ok (s.toList.map (fun c => Value.str (String.mk [c])))
  | Value.dict kvs => Except.ok (kvs.map (fun kv => Value.str kv.1))
  | _ => Except.error "TypeError: not iterable"

/-- `charm.config.get(key, default)`: the ops config mapping, embedded as an
association list. Unlike `dictGet` it cannot raise. -/
def configGet (cfg : List (String × Value)) (k : String) (d : Value) : Value :=
  (lookupKey cfg k).getD d

/-! ## lib/prometheus_config.py -/

/-- `PrometheusConfig._build_self_monitoring_job` (lines 86-95): a fixed dict,
independent of any configuration. -/
def selfMonitoringJob : Value :=
  Value.dict
    [("job_name", Value.str "prometheus"),
     ("static_configs",
       Value.list [Value.dict [("targets", Value.list [Value.str "localhost:9090"])]])]

/-- The body of the `for target in targets` loop of `_build_job_config`
(lines 121-127): a wildcard target (`*:port`) and a plain target are both
appended unchanged; a non-string raises `AttributeError` (`.startswith`). -/
def resolveTarget (t : Value) : Except String Value :=
  match t with
  | Value.str s =>
      Except.ok (if s.startsWith "*:" then Value.str s else Value.str s)
  | _ => Except.error "AttributeError"

/-- The `for target in targets` loop building `resolved_targets`
(lines 120-127). -/
def resolveTargets : List Value → Except String (List Value)
  | [] => Except.ok []
  | t :: rest => do
      let r ← resolveTarget t
      let rs ← resolveTargets rest
      pure (r :: rs)

/-- The `for config in static_configs` loop of `_build_job_config`
(lines 114-135): per group, read `targets` (default `[]`) and `labels`
(default `{}`), resolve each target, and keep the group (with its labels,
defaulted to the empty dict) only if the resolved target list is non-empty. -/
def processStaticConfigs (configs : List Value) : Except String (List Value) :=
  match configs with
  | [] => Except.ok []
  | config :: rest => do
      let targetsV ← dictGet config "targets" (Value.list [])
      let labels ← dictGet config "labels" (Value.dict [])
      let targets ← pyIter targetsV
      let resolved ← resolveTargets targets
      let restP ← processStaticConfigs rest
      if resolved.isEmpty then
        pure restP
      else
        pure (Value.dict [("targets", Value.list resolved), ("labels", labels)] :: restP)

/-- `PrometheusConfig._build_job_config` (lines 97-155). Returns `none` where
the Python returns `None` (no non-empty target group), and `Except.error`
where the Python raises. -/
def buildJobConfig (jobName : String) (jobData : Value) :
    Except String (Option Value) := do
  let metricsPath ← dictGet jobData "metrics_path" (Value.str "/metrics")
  let staticConfigsV ← dictGet jobData "static_configs" (Value.list [])
  let staticConfigs ← pyIter staticConfigsV
  let processed ← processStaticConfigs staticConfigs
  if processed.isEmpty then
    pure none
  else
    let base :=
      [("job_name", Value.str jobName),
       ("metrics_path", metricsPath),
       ("static_configs", Value.list processed)]
    let withRelabel :=
      if dictHas jobData "relabel_configs" then
        match dictGetOpt jobData "relabel_configs" with
        | Except.ok (some v) => base ++ [("relabel_configs", v)]
        | _ => base
      else base
    let withMetricRelabel :=
      if dictHas jobData "metric_relabel_configs" then
        match dictGetOpt jobData "metric_relabel_configs" with
        | Except.ok (some v) => withRelabel ++ [("metric_relabel_configs", v)]
        | _ => withRelabel
      else withRelabel
    pure (some (Value.dict withMetricRelabel))

/-- The per-job step of `_build_scrape_configs` (lines 76-82): a job whose
build raises, or builds `None`, contributes nothing; otherwise its config. -/
def builtJobOpt (p : String × Value) : Option Value :=
  match buildJobConfig p.1 p.2 with
  | Except.ok (some c) => some c
  | _ => none

/-- `PrometheusConfig._build_scrape_configs` (lines 59-84): the
self-monitoring job first, then each successfully built job in order. -/
def buildScrapeConfigs (scrapeJobs : List (String × Value)) : List Value :=
  selfMonitoringJob :: scrapeJobs.filterMap builtJobOpt

/-- `PrometheusConfig._build_global_config` (lines 47-57). -/
def buildGlobalConfig (cfg : List (String × Value)) : Value :=
  Value.dict
    [("scrape_interval", configGet cfg "scrape-interval" (Value.str "1m")),
     ("scrape_timeout", configGet cfg "scrape-timeout" (Value.str "10s")),
     ("evaluation_interval", configGet cfg "evaluation-interval" (Value.str "1m"))]

/-- The configuration document `PrometheusConfig.generate_config`
(lines 24-45) builds before dumping it to `prometheus.yml`. -/
def generateConfigDoc (cfg : List (String × Value))
    (scrapeJobs : List (String × Value)) : Value :=
  Value.dict
    [("global", buildGlobalConfig cfg),
     ("scrape_configs", Value.list (buildScrapeConfigs scrapeJobs))]

/-- `PrometheusInstaller.create_systemd_service` (lines 161-178): the listen
address baked into the systemd unit's `--web.listen-address` argument. -/
def createSystemdListenAddress (cfg : List (String × Value)) : Value :=
  configGet cfg "listen-address" (Value.str "0.0.0.0:9090")

/-! ## src/charm.py — status probe (`_get_active_targets_from_api`, lines 218-257) -/

/-- Outcome of one HTTP attempt against `/api/v1/targets`: either the request
raises `ConnectionError`/`Timeout`, or it returns a status code and a parsed
JSON body. -/
inductive ApiResult where
  | conn_error
  | success (status : Nat) (body : Value)

/-- The filter of the `non_self_targets` list comprehension (lines 238-242):
`t.get("labels", {}).get("job") != "prometheus"`. `none` is Python `None`,
which compares unequal to the string, as does any non-string value. -/
def neqPrometheus (jobLabelV : Option Value) : Bool :=
  match jobLabelV with
  | some (Value.str s) => s != "prometheus"
  | _ => true

/-- Counts, over the active-target list, the entries kept by the
`non_self_targets` comprehension; raises where Python would
(non-dict entry or non-dict labels). -/
def countLoop : List Value → Except String Nat
  | [] => Except.ok 0
  | t :: rest => do
      let labels ← dictGet t "labels" (Value.dict [])
      let jobLabelV ← dictGetOpt labels "job"
      let restCount ← countLoop rest
      pure (if neqPrometheus jobLabelV then restCount + 1 else restCount)

/-- Lines 235-243: extract `data.activeTargets` from the response body and
count the non-self targets. -/
def countNonSelfTargets (body : Value) : Except String Nat := do
  let dataV ← dictGet body "data" (Value.dict [])
  let activeTargets ← dictGet dataV "activeTargets" (Value.list [])
  let ts ← pyIter activeTargets
  countLoop ts

/-- `max_retries = 3` (line 228). -/
def maxRetries : Nat := 3

/-- Observable outcome of the probe: the returned count, how many HTTP
attempts were made, and the sequence of `time.sleep` delays issued. -/
structure ProbeResult where
  count : Nat
  attempts : Nat
  sleeps : List Nat
  deriving DecidableEq

/-- The `for attempt in range(max_retries)` loop (lines 229-253), plus the
surrounding `try`/`except` (lines 220, 254-257): a connection error sleeps 2
seconds unless this was the final attempt and retries; a 200 response returns
the count (any exception while extracting it escapes to the outer handler,
which returns 0); a non-200 response retries immediately without sleeping;
falling off the loop returns 0. -/
def runAttempts (behavior : Nat → ApiResult) :
    List Nat → Nat → List Nat → ProbeResult
  | [], attempts, sleeps => ⟨0, attempts, sleeps⟩
  | i :: rest, attempts, sleeps =>
      match behavior i with
      | ApiResult.conn_error =>
          runAttempts behavior rest (attempts + 1)
            (if i < maxRetries - 1 then sleeps ++ [2] else sleeps)
      | ApiResult.success status body =>
          if status = 200 then
            match countNonSelfTargets body with
            | Except.ok n => ⟨n, attempts + 1, sleeps⟩
            | Except.error _ => ⟨0, attempts + 1, sleeps⟩
          else
            runAttempts behavior rest (attempts + 1) sleeps

/-- `PrometheusMachineCharm._get_active_targets_from_api` (lines 218-257),
with the HTTP layer abstracted as `behavior : attempt index → ApiResult`. -/
def getActiveTargets (behavior : Nat → ApiResult) : ProbeResult :=
  runAttempts behavior (List.range maxRetries) 0 []

/-! ## src/charm.py — job collection (`_get_scrape_jobs`, lines 206-216) -/

/-- `job.get("job_name", "unknown")` (line 212). -/
def effJobName (job : Value) : Except String Value :=
  dictGet job "job_name" (Value.str "unknown")

/-- Python `jobs[k] = v` on an insertion-ordered dict: an existing key keeps
its position and takes the new value, a new key is appended. -/
def dictInsert (d : List (Value × Value)) (k v : Value) : List (Value × Value) :=
  match d.any (fun kv => valueBeq kv.1 k) with
  | true => d.map (fun kv =>
      match valueBeq kv.1 k with
      | true => (kv.1, v)
      | false => kv)
  | false => d ++ [(k, v)]

/-- First-match lookup in an insertion-ordered dict with `Value` keys. -/
def lookupV (d : List (Value × Value)) (k : Value) : Option Value :=
  match d with
  | [] => none
  | (k₁, v) :: rest =>
      match valueBeq k₁ k with
      | true => some v
      | false => lookupV rest k

/-- `PrometheusMachineCharm._get_scrape_jobs` (lines 206-216): fold the
consumer's job list into a dict keyed by `job_name` (default "unknown"). -/
def getScrapeJobs (jobList : List Value) : Except String (List (Value × Value)) :=
  jobList.foldlM (fun acc job => do
    let name ← effJobName job
    pure (dictInsert acc name job)) []

/-! ## src/charm.py — reconciliation handlers

The charm's externally observable state: its config mapping, the installer
collaborator's install/run state, the written configuration document, and
counters for the two side effects the claims speak about (config writes and
service restarts). -/

structure World where
  config : List (String × Value)
  installed : Bool
  running : Bool
  storedConfig : Option Value
  configWrites : Nat
  restarts : Nat
  status : String

/-- `PrometheusInstaller.is_service_running` at the interface boundary. -/
def isServiceRunning (w : World) : Bool := w.running

/-- `PrometheusInstaller.restart_service`: `systemctl restart` leaves the
service running and is counted. -/
def restartService (w : World) : World :=
  { w with restarts := w.restarts + 1, running := true }

/-- `PrometheusConfig.generate_config` (lines 24-45): write the rendered
document to the config file, unconditionally. -/
def generateConfigW (jobs : List (String × Value)) (w : World) : World :=
  { w with storedConfig := some (generateConfigDoc w.config jobs),
           configWrites := w.configWrites + 1 }

/-- `PrometheusMachineCharm._update_status` (lines 259-278). -/
def updateStatus (behavior : Nat → ApiResult) (w : World) : World :=
  if ¬ w.installed then { w with status := "Prometheus not installed" }
  else if ¬ isServiceRunning w then
    { w with status := "Prometheus service not running" }
  else if (getActiveTargets behavior).count = 0 then
    { w with status := "Prometheus ready (no targets)" }
  else
    { w with status :=
        "Prometheus ready (scraping " ++
          toString (getActiveTargets behavior).count ++ " targets)" }

/-- `PrometheusMachineCharm._on_config_changed` (lines 151-164), with the
job snapshot (`_get_scrape_jobs`) and the probe behavior as parameters. -/
def onConfigChanged (behavior : Nat → ApiResult)
    (jobs : List (String × Value)) (w : World) : World :=
  let w₁ := generateConfigW jobs w
  let w₂ := if isServiceRunning w₁ then restartService w₁ else w₁
  updateStatus behavior w₂

/-- `PrometheusMachineCharm._on_targets_changed` (lines 189-204): same
write-then-conditionally-restart-then-status shape. -/
def onTargetsChanged (behavior : Nat → ApiResult)
    (jobs : List (String × Value)) (w : World) : World :=
  let w₁ := generateConfigW jobs w
  let w₂ := if isServiceRunning w₁ then restartService w₁ else w₁
  updateStatus behavior w₂

/-! ## Structured inputs

Well-formed inputs in the shape §3 of the design gives them (a job descriptor
with string targets and string-to-string labels; an active-target entry with a
labels mapping), together with their encodings into the `Value` data actually
handed to the code. The claims quantify over these structured inputs. -/

/-- A static target group: a target list and an optional labels mapping
(`none` means the `labels` key is absent from the input). -/
structure TargetGroup where
  targets : List String
  labels : Option (List (String × String))

/-- A job descriptor as delivered over the relation: optional metrics path
(absent means the code's `/metrics` default applies), target groups, and
optional opaque relabelling structures. -/
structure JobDescriptor where
  metricsPath : Option String
  staticConfigs : List TargetGroup
  relabelConfigs : Option Value
  metricRelabelConfigs : Option Value

def labelsValue (ls : List (String × String)) : Value :=
  Value.dict (ls.map (fun p => (p.1, Value.str p.2)))

def encodeGroup (g : TargetGroup) : Value :=
  Value.dict
    ([("targets", Value.list (g.targets.map Value.str))] ++
      (match g.labels with
       | none => []
       | some ls => [("labels", labelsValue ls)]))

/-- A dict entry that is present only when the optional value is. -/
def optEntry (k : String) (o : Option Value) : List (String × Value) :=
  match o with
  | none => []
  | some v => [(k, v)]

def encodeJob (jd : JobDescriptor) : Value :=
  Value.dict
    (optEntry "metrics_path" (jd.metricsPath.map Value.str) ++
     [("static_configs", Value.list (jd.staticConfigs.map encodeGroup))] ++
     optEntry "relabel_configs" jd.relabelConfigs ++
     optEntry "metric_relabel_configs" jd.metricRelabelConfigs)

/-- The labels value the code stores for a retained group: the group's own
labels, or an explicit empty mapping when the input had none. -/
def labelsOrEmpty (g : TargetGroup) : Value :=
  match g.labels with
  | none => Value.dict []
  | some ls => labelsValue ls

/-- The `Value` the code produces for a retained static target group. -/
def renderGroup (g : TargetGroup) : Value :=
  Value.dict
    [("targets", Value.list (g.targets.map Value.str)),
     ("labels", labelsOrEmpty g)]

/-- An entry of the status API's active-target list: its labels mapping. -/
structure ActiveTarget where
  labels : List (String × String)

def encodeTarget (t : ActiveTarget) : Value :=
  Value.dict [("labels", labelsValue t.labels)]

/-- A well-formed `/api/v1/targets` response body. -/
def encodeTargetsBody (ts : List ActiveTarget) : Value :=
  Value.dict
    [("data", Value.dict
      [("activeTargets", Value.list (ts.map encodeTarget))])]

/-- The job label of an active-target entry, if any. -/
def jobLabel (t : ActiveTarget) : Option String :=
  (t.labels.find? (fun p => p.1 == "job")).map (fun p => p.2)

/-- `_get_scrape_jobs` restricted to inputs that are dicts (on anything else
the Python handler would itself crash): the fold of `jobs[job_name] = job`. -/
def effKeyL (kvs : List (String × Value)) : Value :=
  (lookupKey kvs "job_name").getD (Value.str "unknown")

def getScrapeJobsD (jobs : List (List (String × Value))) : List (Value × Value) :=
  jobs.foldl (fun acc kv => dictInsert acc (effKeyL kv) (Value.dict kv)) []

/-- The groups of a descriptor that survive the empty-target filter. -/
def keptGroups (jd : JobDescriptor) : List TargetGroup :=
  jd.staticConfigs.filter (fun g => !g.targets.isEmpty)

/-- The scrape job `_build_job_config` produces for a well-formed descriptor
that keeps at least one group. -/
def renderJob (name : String) (jd : JobDescriptor) : Value :=
  Value.dict
    ([("job_name", Value.str name),
      ("metrics_path", Value.str (jd.metricsPath.getD "/metrics")),
      ("static_configs", Value.list ((keptGroups jd).map renderGroup))] ++
     optEntry "relabel_configs" jd.relabelConfigs ++
     optEntry "metric_relabel_configs" jd.metricRelabelConfigs)

/-- Concrete well-formed descriptors used by the closed witnesses. -/
def jdA : JobDescriptor :=
  ⟨some "/metrics", [⟨["10.0.0.1:9100"], some [("env", "prod")]⟩], none, none⟩

def jdB : JobDescriptor :=
  ⟨none, [⟨["10.0.0.2:9100"], none⟩], none, none⟩

/-! ## Supporting lemmas -/

theorem ok_bind {ε α β : Type} (a : α) (f : α → Except ε β) :
    (Except.ok a : Except ε α) >>= f = f a := rfl

theorem error_bind {ε α β : Type} (e : ε) (f : α → Except ε β) :
    (Except.error e : Except ε α) >>= f = Except.error e := rfl

theorem pure_eq_ok {ε α : Type} (a : α) : (pure a : Except ε α) = Except.ok a := rfl

theorem resolveTarget_str (s : String) :
    resolveTarget (Value.str s) = Except.ok (Value.str s) := by
  simp [resolveTarget]

theorem resolveTargets_strs (ts : List String) :
    resolveTargets (ts.map Value.str) = Except.ok (ts.map Value.str) := by
  induction ts with
  | nil => simp [resolveTargets]
  | cons t ts ih => simp [resolveTargets, resolveTarget_str, ih, ok_bind, pure_eq_ok]

theorem encodeGroup_targets (g : TargetGroup) :
    dictGet (encodeGroup g) "targets" (Value.list []) =
      Except.ok (Value.list (g.targets.map Value.str)) := by
  rcases g with ⟨ts, ls⟩
  cases ls <;> simp [encodeGroup, dictGet, lookupKey]

theorem encodeGroup_labels (g : TargetGroup) :
    dictGet (encodeGroup g) "labels" (Value.dict []) =
      Except.ok (labelsOrEmpty g) := by
  rcases g with ⟨ts, ls⟩
  cases ls <;> simp [encodeGroup, dictGet, lookupKey, labelsOrEmpty]

theorem processStaticConfigs_encode (gs : List TargetGroup) :
    processStaticConfigs (gs.map encodeGroup) =
      Except.ok ((gs.filter (fun g => !g.targets.isEmpty)).map renderGroup) := by
  induction gs with
  | nil => simp [processStaticConfigs]
  | cons g gs ih =>
      rcases g with ⟨ts, ls⟩
      cases ts with
      | nil =>
          simp [processStaticConfigs, encodeGroup_targets, encodeGroup_labels,
                pyIter, resolveTargets, ih, ok_bind, pure_eq_ok]
      | cons t ts =>
          have hres := resolveTargets_strs (t :: ts)
          simp only [List.map_cons] at hres
          simp [processStaticConfigs, encodeGroup_targets, encodeGroup_labels,
                pyIter, hres, ih, ok_bind, pure_eq_ok, renderGroup]

theorem encodeJob_metrics (jd : JobDescriptor) :
    dictGet (encodeJob jd) "metrics_path" (Value.str "/metrics") =
      Except.ok (Value.str (jd.metricsPath.getD "/metrics")) := by
  rcases jd with ⟨mp, sc, rl, mrl⟩
  cases mp <;> cases rl <;> cases mrl <;>
    simp [encodeJob, optEntry, dictGet, lookupKey]

theorem encodeJob_static (jd : JobDescriptor) :
    dictGet (encodeJob jd) "static_configs" (Value.list []) =
      Except.ok (Value.list (jd.staticConfigs.map encodeGroup)) := by
  rcases jd with ⟨mp, sc, rl, mrl⟩
  cases mp <;> cases rl <;> cases mrl <;>
    simp [encodeJob, optEntry, dictGet, lookupKey]

theorem encodeJob_hasRelabel (jd : JobDescriptor) :
    dictHas (encodeJob jd) "relabel_configs" = jd.relabelConfigs.isSome := by
  rcases jd with ⟨mp, sc, rl, mrl⟩
  cases mp <;> cases rl <;> cases mrl <;>
    simp [encodeJob, optEntry, dictHas]

theorem encodeJob_getRelabel (jd : JobDescriptor) :
    dictGetOpt (encodeJob jd) "relabel_configs" = Except.ok jd.relabelConfigs := by
  rcases jd with ⟨mp, sc, rl, mrl⟩
  cases mp <;> cases rl <;> cases mrl <;>
    simp [encodeJob, optEntry, dictGetOpt, lookupKey]

theorem encodeJob_hasMetricRelabel (jd : JobDescriptor) :
    dictHas (encodeJob jd) "metric_relabel_configs" =
      jd.metricRelabelConfigs.isSome := by
  rcases jd with ⟨mp, sc, rl, mrl⟩
  cases mp <;> cases rl <;> cases mrl <;>
    simp [encodeJob, optEntry, dictHas]

theorem encodeJob_getMetricRelabel (jd : JobDescriptor) :
    dictGetOpt (encodeJob jd) "metric_relabel_configs" =
      Except.ok jd.metricRelabelConfigs := by
  rcases jd with ⟨mp, sc, rl, mrl⟩
  cases mp <;> cases rl <;> cases mrl <;>
    simp [encodeJob, optEntry, dictGetOpt, lookupKey]

/-- Full characterization of `_build_job_config` on a well-formed descriptor:
it never raises, returns `none` exactly when every group is dropped, and
otherwise renders the kept groups in order with the optional relabel keys. -/
theorem buildJobConfig_encode (name : String) (jd : JobDescriptor) :
    buildJobConfig name (encodeJob jd) =
      Except.ok (if (keptGroups jd).isEmpty then none
                 else some (renderJob name jd)) := by
  have hmap : (jd.staticConfigs.map encodeGroup) =
      ((jd.staticConfigs.map encodeGroup) : List Value) := rfl
  rcases hj : jd with ⟨mp, sc, rl, mrl⟩
  simp only [buildJobConfig, encodeJob_metrics, encodeJob_static, pyIter,
             ok_bind, pure_eq_ok, processStaticConfigs_encode]
  rcases h : sc.filter (fun g => !g.targets.isEmpty) with _ | ⟨g, gs⟩ <;>
    cases rl <;> cases mrl <;>
      simp [keptGroups, renderJob, optEntry, h, encodeJob_hasRelabel,
            encodeJob_getRelabel, encodeJob_hasMetricRelabel,
            encodeJob_getMetricRelabel, hj]

theorem decide_eq_valueBeq (a b : Value) : decide (a = b) = valueBeq a b := by
  by_cases h : a = b
  · simp [h, (valueBeq_eq b b).mpr rfl]
  · have hb : valueBeq a b = false := by
      rcases hc : valueBeq a b with _ | _
      · rfl
      · exact absurd ((valueBeq_eq a b).mp hc) h
    simp [h, hb]

theorem valueBeq_trans_of_eq {a b c : Value} (h₁ : valueBeq a b = true)
    (h₂ : valueBeq a c = true) : valueBeq b c = true :=
  (valueBeq_eq b c).mpr (((valueBeq_eq a b).mp h₁).symm.trans ((valueBeq_eq a c).mp h₂))

theorem lookupV_append (d₁ d₂ : List (Value × Value)) (k : Value) :
    lookupV (d₁ ++ d₂) k =
      (match lookupV d₁ k with
       | some v => some v
       | none => lookupV d₂ k) := by
  induction d₁ with
  | nil => simp [lookupV]
  | cons kv rest ih =>
      rcases hk : valueBeq kv.1 k with _ | _ <;>
        simp [lookupV, hk, ih]

theorem lookupV_eq_none (d : List (Value × Value)) (k : Value)
    (h : d.any (fun kv => valueBeq kv.1 k) = false) : lookupV d k = none := by
  induction d with
  | nil => rfl
  | cons kv rest ih =>
      simp only [List.any_cons, Bool.or_eq_false_iff] at h
      simp [lookupV, h.1, ih h.2]

theorem lookupV_map_replace_ne (d : List (Value × Value)) (k₀ v k : Value)
    (h : valueBeq k₀ k = false) :
    lookupV (d.map (fun kv =>
        match valueBeq kv.1 k₀ with
        | true => (kv.1, v)
        | false => kv)) k = lookupV d k := by
  induction d with
  | nil => rfl
  | cons kv rest ih =>
      rcases hk₀ : valueBeq kv.1 k₀ with _ | _
      · rcases hk : valueBeq kv.1 k with _ | _ <;>
          simp [lookupV, hk₀, hk, ih]
      · rcases hk : valueBeq kv.1 k with _ | _
        · simp [lookupV, hk₀, hk, ih]
        · exact absurd (valueBeq_trans_of_eq hk₀ hk) (by simp [h])

theorem lookupV_map_replace_eq (d : List (Value × Value)) (k₀ v k : Value)
    (hmem : d.any (fun kv => valueBeq kv.1 k₀) = true)
    (h : valueBeq k₀ k = true) :
    lookupV (d.map (fun kv =>
        match valueBeq kv.1 k₀ with
        | true => (kv.1, v)
        | false => kv)) k = some v := by
  induction d with
  | nil => simp at hmem
  | cons kv rest ih =>
      simp only [List.any_cons, Bool.or_eq_true] at hmem
      rcases hk₀ : valueBeq kv.1 k₀ with _ | _
      · rcases hk : valueBeq kv.1 k with _ | _
        · rcases hmem with hmem | hmem
          · simp [hk₀] at hmem
          · simp [lookupV, hk₀, hk, ih hmem]
        · -- head matches the lookup key, so it also matches the inserted key
          have : valueBeq kv.1 k₀ = true := by
            have hkk : kv.1 = k := (valueBeq_eq kv.1 k).mp hk
            have hk₀k : k₀ = k := (valueBeq_eq k₀ k).mp h
            exact (valueBeq_eq kv.1 k₀).mpr (hkk.trans hk₀k.symm)
          simp [this] at hk₀
      · have hkk : valueBeq kv.1 k = true := by
          have h1 : kv.1 = k₀ := (valueBeq_eq kv.1 k₀).mp hk₀
          have h2 : k₀ = k := (valueBeq_eq k₀ k).mp h
          exact (valueBeq_eq kv.1 k).mpr (h1.trans h2)
        simp [lookupV, hk₀, hkk]

theorem lookupV_dictInsert (d : List (Value × Value)) (k₀ v k : Value) :
    lookupV (dictInsert d k₀ v) k =
      (match valueBeq k₀ k with
       | true => some v
       | false => lookupV d k) := by
  rcases hmem : d.any (fun kv => valueBeq kv.1 k₀) with _ | _
  · simp only [dictInsert, hmem, lookupV_append]
    rcases hb : valueBeq k₀ k with _ | _
    · cases hd : lookupV d k <;> simp [lookupV, hb, hd]
    · have hnone : lookupV d k = none := by
        refine lookupV_eq_none d k ?_
        rcases hany : d.any (fun kv => valueBeq kv.1 k) with _ | _
        · rfl
        · rcases List.any_eq_true.mp hany with ⟨kv, hkv, hbeq⟩
          have : valueBeq kv.1 k₀ = true := by
            have h1 : kv.1 = k := (valueBeq_eq kv.1 k).mp hbeq
            have h2 : k₀ = k := (valueBeq_eq k₀ k).mp hb
            exact (valueBeq_eq kv.1 k₀).mpr (h1.trans h2.symm)
          have : d.any (fun kv => valueBeq kv.1 k₀) = true :=
            List.any_eq_true.mpr ⟨kv, hkv, this⟩
          simp [this] at hmem
      simp [hnone, lookupV, hb]
  · simp only [dictInsert, hmem]
    rcases hb : valueBeq k₀ k with _ | _
    · simpa [hb] using lookupV_map_replace_ne d k₀ v k hb
    · simpa [hb] using lookupV_map_replace_eq d k₀ v k hmem hb

theorem getLast?_cons_eq {α : Type} (a : α) (l : List α) :
    (a :: l).getLast? = some (l.getLast?.getD a) := by
  induction l generalizing a with
  | nil => rfl
  | cons b l ih =>
      rw [List.getLast?_cons_cons, ih b]
      simp

theorem effJobName_dict (kvs : List (String × Value)) :
    effJobName (Value.dict kvs) = Except.ok (effKeyL kvs) := rfl

theorem getScrapeJobs_foldl (jobs : List (List (String × Value)))
    (acc : List (Value × Value)) :
    List.foldlM (fun acc job => do
        let name ← effJobName job
        pure (dictInsert acc name job)) acc (jobs.map Value.dict) =
      Except.ok (jobs.foldl
        (fun acc kv => dictInsert acc (effKeyL kv) (Value.dict kv)) acc) := by
  induction jobs generalizing acc with
  | nil => rfl
  | cons j rest ih =>
      have ih₂ := ih (dictInsert acc (effKeyL j) (Value.dict j))
      simp only [pure_eq_ok] at ih₂ ⊢
      simp only [List.map_cons, List.foldlM_cons, effJobName_dict, ok_bind,
                 List.foldl_cons]
      exact ih₂

theorem getScrapeJobs_dicts (jobs : List (List (String × Value))) :
    getScrapeJobs (jobs.map Value.dict) = Except.ok (getScrapeJobsD jobs) := by
  simpa [getScrapeJobs, getScrapeJobsD] using getScrapeJobs_foldl jobs []

theorem foldl_insert_lookup (jobs : List (List (String × Value)))
    (acc : List (Value × Value)) (k : Value) :
    lookupV (jobs.foldl
        (fun acc kv => dictInsert acc (effKeyL kv) (Value.dict kv)) acc) k =
      (match ((jobs.filter (fun kv => valueBeq (effKeyL kv) k)).map
          Value.dict).getLast? with
       | some v => some v
       | none => lookupV acc k) := by
  induction jobs generalizing acc with
  | nil => simp
  | cons j rest ih =>
      simp only [List.foldl_cons, ih, List.filter_cons]
      rcases hb : valueBeq (effKeyL j) k with _ | _
      · simp [hb, lookupV_dictInsert]
      · simp only [hb, if_true, List.map_cons, getLast?_cons_eq]
        cases hl : ((rest.filter (fun kv => valueBeq (effKeyL kv) k)).map
            Value.dict).getLast? <;>
          simp [hl, lookupV_dictInsert, hb]

theorem encodeTarget_labels (t : ActiveTarget) :
    dictGet (encodeTarget t) "labels" (Value.dict []) =
      Except.ok (labelsValue t.labels) := by
  simp [encodeTarget, dictGet, lookupKey]

theorem lookupKey_labelsValue (ls : List (String × String)) (k : String) :
    lookupKey (ls.map (fun p => (p.1, Value.str p.2))) k =
      (ls.find? (fun p => p.1 == k)).map (fun p => Value.str p.2) := by
  induction ls with
  | nil => rfl
  | cons p ps ih =>
      by_cases h : p.1 = k <;> simp [lookupKey, List.find?_cons, h, ih]

theorem countLoop_encode (ts : List ActiveTarget) :
    countLoop (ts.map encodeTarget) =
      Except.ok ((ts.filter
        (fun t => jobLabel t ≠ some "prometheus")).length) := by
  induction ts with
  | nil => rfl
  | cons t rest ih =>
      cases hf : t.labels.find? (fun p => p.1 == "job") with
      | none =>
          simp [countLoop, encodeTarget_labels, dictGetOpt, labelsValue,
                lookupKey_labelsValue, hf, neqPrometheus, ok_bind, pure_eq_ok,
                ih, jobLabel, List.filter_cons]
      | some p =>
          by_cases hp : p.2 = "prometheus" <;>
            simp [countLoop, encodeTarget_labels, dictGetOpt, labelsValue,
                  lookupKey_labelsValue, hf, neqPrometheus, ok_bind, pure_eq_ok,
                  ih, jobLabel, List.filter_cons, hp, bne]

theorem getActiveTargets_success (ts : List ActiveTarget) :
    getActiveTargets (fun _ => ApiResult.success 200 (encodeTargetsBody ts)) =
      ⟨(ts.filter (fun t => jobLabel t ≠ some "prometheus")).length, 1, []⟩ := by
  have hr : List.range maxRetries = [0, 1, 2] := rfl
  simp [getActiveTargets, hr, runAttempts, countNonSelfTargets,
        encodeTargetsBody, dictGet, lookupKey, pyIter, ok_bind,
        countLoop_encode ts]

theorem updateStatus_eq (behavior : Nat → ApiResult) (w : World) :
    updateStatus behavior w =
      { w with status := (updateStatus behavior w).status } := by
  unfold updateStatus
  split_ifs <;> rfl

theorem updateStatus_configWrites (behavior : Nat → ApiResult) (w : World) :
    (updateStatus behavior w).configWrites = w.configWrites := by
  rw [updateStatus_eq]

theorem updateStatus_storedConfig (behavior : Nat → ApiResult) (w : World) :
    (updateStatus behavior w).storedConfig = w.storedConfig := by
  rw [updateStatus_eq]

theorem updateStatus_restarts (behavior : Nat → ApiResult) (w : World) :
    (updateStatus behavior w).restarts = w.restarts := by
  rw [updateStatus_eq]

theorem updateStatus_running (behavior : Nat → ApiResult) (w : World) :
    (updateStatus behavior w).running = w.running := by
  rw [updateStatus_eq]

theorem onConfigChanged_fields (behavior : Nat → ApiResult)
    (jobs : List (String × Value)) (w : World) :
    (onConfigChanged behavior jobs w).configWrites = w.configWrites + 1 ∧
    (onConfigChanged behavior jobs w).storedConfig =
      some (generateConfigDoc w.config jobs) ∧
    (onConfigChanged behavior jobs w).restarts =
      w.restarts + (if w.running then 1 else 0) ∧
    (onConfigChanged behavior jobs w).running = w.running := by
  cases hr : w.running <;>
    simp [onConfigChanged, generateConfigW, restartService, isServiceRunning,
          hr, updateStatus_configWrites, updateStatus_storedConfig,
          updateStatus_restarts, updateStatus_running]

theorem onTargetsChanged_fields (behavior : Nat → ApiResult)
    (jobs : List (String × Value)) (w : World) :
    (onTargetsChanged behavior jobs w).configWrites = w.configWrites + 1 ∧
    (onTargetsChanged behavior jobs w).storedConfig =
      some (generateConfigDoc w.config jobs) ∧
    (onTargetsChanged behavior jobs w).restarts =
      w.restarts + (if w.running then 1 else 0) ∧
    (onTargetsChanged behavior jobs w).running = w.running := by
  cases hr : w.running <;>
    simp [onTargetsChanged, generateConfigW, restartService, isServiceRunning,
          hr, updateStatus_configWrites, updateStatus_storedConfig,
          updateStatus_restarts, updateStatus_running]

/-! ## Claims -/

/-- C1 counterexample: the claim says the self-monitoring job's single target
is the listen-address parameter's value. Under the default configuration the
listen address is "0.0.0.0:9090", yet the self-monitoring job's only static
target group targets the fixed string "localhost:9090", which differs. -/
theorem claim_C1_counterexample :
    dictGetOpt selfMonitoringJob "static_configs" =
      Except.ok (some (Value.list
        [Value.dict [("targets", Value.list [Value.str "localhost:9090"])]])) ∧
    createSystemdListenAddress [] = Value.str "0.0.0.0:9090" ∧
    Value.str "localhost:9090" ≠ Value.str "0.0.0.0:9090" := by
  refine ⟨rfl, rfl, ?_⟩
  simp

/-- C1 (amended): for every configuration and every job collection, the
self-monitoring job at position 0 of the rendered scrape jobs has exactly one
static target group whose single target is the fixed address
"localhost:9090"; the listen-address parameter is never consulted. -/
theorem claim_C1_amended (cfg jobs : List (String × Value)) :
    (buildScrapeConfigs jobs).head? = some selfMonitoringJob ∧
    dictGetOpt selfMonitoringJob "static_configs" =
      Except.ok (some (Value.list
        [Value.dict [("targets", Value.list [Value.str "localhost:9090"])]])) ∧
    createSystemdListenAddress cfg =
      configGet cfg "listen-address" (Value.str "0.0.0.0:9090") :=
  ⟨rfl, rfl, rfl⟩

/-- C2: for every configuration and every job collection (the empty one
included), the rendered document's scrape-job list is exactly the built
scrape configs, which are non-empty with the self-monitoring job named
"prometheus" at position 0. -/
theorem claim_C2_self_job_first (cfg jobs : List (String × Value)) :
    dictGetOpt (generateConfigDoc cfg jobs) "scrape_configs" =
      Except.ok (some (Value.list (buildScrapeConfigs jobs))) ∧
    buildScrapeConfigs jobs ≠ [] ∧
    (buildScrapeConfigs jobs).head? = some selfMonitoringJob ∧
    dictGetOpt selfMonitoringJob "job_name" =
      Except.ok (some (Value.str "prometheus")) := by
  refine ⟨?_, ?_, rfl, rfl⟩
  · simp [generateConfigDoc, dictGetOpt, lookupKey]
  · simp [buildScrapeConfigs]

/-- C3: for every well-formed descriptor, groups with an empty target set are
dropped, the job is dropped exactly when every group is dropped, and an
accepted job carries precisely its non-empty groups, in order. -/
theorem claim_C3_empty_group_filtering (name : String) (jd : JobDescriptor) :
    buildJobConfig name (encodeJob jd) =
      Except.ok (if (keptGroups jd).isEmpty then none
                 else some (renderJob name jd)) ∧
    keptGroups jd = jd.staticConfigs.filter (fun g => !g.targets.isEmpty) ∧
    dictGetOpt (renderJob name jd) "static_configs" =
      Except.ok (some (Value.list ((keptGroups jd).map renderGroup))) := by
  refine ⟨buildJobConfig_encode name jd, rfl, ?_⟩
  simp [renderJob, dictGetOpt, lookupKey]

/-- C4: a job whose per-job build raises is dropped and the build continues:
the result is the self-monitoring job followed by the contributions of the
jobs before and after the bad one. -/
theorem claim_C4_bad_job_dropped (pre suf : List (String × Value))
    (name : String) (bad : Value) (e : String)
    (h : buildJobConfig name bad = Except.error e) :
    buildScrapeConfigs (pre ++ (name, bad) :: suf) =
      selfMonitoringJob ::
        (pre.filterMap builtJobOpt ++ suf.filterMap builtJobOpt) := by
  simp [buildScrapeConfigs, List.filterMap_append, List.filterMap_cons,
        builtJobOpt, h]

/-- C4 witness: a malformed job (a bare number) between two well-formed jobs
raises inside its own build and is dropped; both neighbours survive. -/
theorem claim_C4_witness :
    buildJobConfig "bad" (Value.nat 3) = Except.error "AttributeError" ∧
    buildScrapeConfigs
        [("app-a", encodeJob jdA), ("bad", Value.nat 3),
         ("app-b", encodeJob jdB)] =
      selfMonitoringJob ::
        ([("app-a", encodeJob jdA)].filterMap builtJobOpt ++
         [("app-b", encodeJob jdB)].filterMap builtJobOpt) :=
  ⟨rfl, claim_C4_bad_job_dropped [("app-a", encodeJob jdA)]
      [("app-b", encodeJob jdB)] "bad" (Value.nat 3) "AttributeError" rfl⟩

/-- C5: if every attempt fails to connect or times out, the probe makes
exactly 3 attempts, sleeps 2 time units between consecutive attempts (so
twice), and returns a count of 0; being a total function it raises nothing
and cannot retry beyond the bound. -/
theorem claim_C5_bounded_retry (behavior : Nat → ApiResult)
    (h : ∀ i, i < maxRetries → behavior i = ApiResult.conn_error) :
    getActiveTargets behavior = ⟨0, 3, [2, 2]⟩ := by
  have h0 := h 0 (by decide)
  have h1 := h 1 (by decide)
  have h2 := h 2 (by decide)
  have hr : List.range maxRetries = [0, 1, 2] := rfl
  simp [getActiveTargets, hr, runAttempts, h0, h1, h2, maxRetries]

/-- C5 witness: the always-unreachable endpoint. -/
theorem claim_C5_witness :
    getActiveTargets (fun _ => ApiResult.conn_error) = ⟨0, 3, [2, 2]⟩ :=
  claim_C5_bounded_retry (fun _ => ApiResult.conn_error) (fun _ _ => rfl)

/-- C6: on a 200 response the returned count is the number of active-target
entries whose job label is not exactly "prometheus" (after one attempt, no
sleeps); in particular one `job=prometheus` entry plus two others counts 2. -/
theorem claim_C6_self_exclusion (ts : List ActiveTarget) :
    getActiveTargets (fun _ => ApiResult.success 200 (encodeTargetsBody ts)) =
      ⟨(ts.filter (fun t => jobLabel t ≠ some "prometheus")).length, 1, []⟩ ∧
    (getActiveTargets (fun _ => ApiResult.success 200 (encodeTargetsBody
        [⟨[("job", "prometheus")]⟩, ⟨[("job", "node")]⟩,
         ⟨[("instance", "host-1")]⟩]))).count = 2 := by
  refine ⟨getActiveTargets_success ts, ?_⟩
  rw [getActiveTargets_success]
  rfl

/-- C7: both reconfiguration handlers write the new configuration
unconditionally, restart exactly once when the process is running and never
when it is stopped, and end in the run/stop sub-state they started in. -/
theorem claim_C7_restart_discipline (behavior : Nat → ApiResult)
    (jobs : List (String × Value)) (w : World) :
    ((onConfigChanged behavior jobs w).configWrites = w.configWrites + 1 ∧
     (onConfigChanged behavior jobs w).storedConfig =
       some (generateConfigDoc w.config jobs) ∧
     (onConfigChanged behavior jobs w).restarts =
       w.restarts + (if w.running then 1 else 0) ∧
     (onConfigChanged behavior jobs w).running = w.running) ∧
    ((onTargetsChanged behavior jobs w).configWrites = w.configWrites + 1 ∧
     (onTargetsChanged behavior jobs w).storedConfig =
       some (generateConfigDoc w.config jobs) ∧
     (onTargetsChanged behavior jobs w).restarts =
       w.restarts + (if w.running then 1 else 0) ∧
     (onTargetsChanged behavior jobs w).running = w.running) :=
  ⟨onConfigChanged_fields behavior jobs w, onTargetsChanged_fields behavior jobs w⟩

/-- C8: the rendered document is a function of the configuration and the job
snapshot alone: handlers run from worlds that agree on the configuration,
under arbitrary probe behaviors and arbitrary other state, store identical
documents, and the pure renderer yields equal documents. -/
theorem claim_C8_render_deterministic (w₁ w₂ : World)
    (b₁ b₂ : Nat → ApiResult) (jobs : List (String × Value))
    (h : w₁.config = w₂.config) :
    (onTargetsChanged b₁ jobs w₁).storedConfig =
      (onTargetsChanged b₂ jobs w₂).storedConfig ∧
    generateConfigDoc w₁.config jobs = generateConfigDoc w₂.config jobs := by
  refine ⟨?_, by rw [h]⟩
  rw [(onTargetsChanged_fields b₁ jobs w₁).2.1,
      (onTargetsChanged_fields b₂ jobs w₂).2.1, h]

/-- C8 witness: two worlds sharing a configuration but differing in installed
state, run state, stored document, counters, status, and probe behavior. -/
theorem claim_C8_witness :
    (onTargetsChanged (fun _ => ApiResult.conn_error) []
        (⟨[("scrape-interval", Value.str "30s")], true, true, none, 0, 0,
          "a"⟩ : World)).storedConfig =
      (onTargetsChanged (fun _ => ApiResult.success 200 (Value.dict [])) []
        (⟨[("scrape-interval", Value.str "30s")], false, false,
          some (Value.bool true), 5, 7, "b"⟩ : World)).storedConfig ∧
    generateConfigDoc
        ((⟨[("scrape-interval", Value.str "30s")], true, true, none, 0, 0,
          "a"⟩ : World)).config [] =
      generateConfigDoc
        ((⟨[("scrape-interval", Value.str "30s")], false, false,
          some (Value.bool true), 5, 7, "b"⟩ : World)).config [] :=
  claim_C8_render_deterministic _ _ _ _ [] rfl

/-- C9: jobs are keyed by their `job_name` with default "unknown"; the stored
value at any key is the last arriving job with that key, so a second nameless
job, or one explicitly named "unknown", overwrites the first. -/
theorem claim_C9_unknown_key_collision (jobs : List (List (String × Value)))
    (k : Value) :
    getScrapeJobs (jobs.map Value.dict) = Except.ok (getScrapeJobsD jobs) ∧
    lookupV (getScrapeJobsD jobs) k =
      ((jobs.filter (fun kv => valueBeq (effKeyL kv) k)).map
        Value.dict).getLast? ∧
    effKeyL [] = Value.str "unknown" ∧
    lookupV (getScrapeJobsD
        [[("port", Value.nat 9100)],
         [("job_name", Value.str "unknown"), ("port", Value.nat 9200)]])
      (Value.str "unknown") =
      some (Value.dict
        [("job_name", Value.str "unknown"), ("port", Value.nat 9200)]) := by
  refine ⟨getScrapeJobs_dicts jobs, ?_, rfl, ?_⟩
  · have h := foldl_insert_lookup jobs [] k
    cases hl : ((jobs.filter (fun kv => valueBeq (effKeyL kv) k)).map
        Value.dict).getLast? <;>
      simp only [hl, lookupV] at h <;>
      simpa [getScrapeJobsD, hl] using h
  · simp [getScrapeJobsD, dictInsert, effKeyL, lookupKey, lookupV, valueBeq]

/-- C10: every retained group is rendered with a `labels` key — an explicit
empty mapping when the input had none — while the relabel keys are present
on the rendered job exactly when the descriptor supplied them. -/
theorem claim_C10_labels_always_present (name : String) (jd : JobDescriptor)
    (c : Value) (h : buildJobConfig name (encodeJob jd) = Except.ok (some c)) :
    dictGetOpt c "static_configs" =
      Except.ok (some (Value.list ((keptGroups jd).map renderGroup))) ∧
    (∀ g ∈ keptGroups jd, dictHas (renderGroup g) "labels" = true) ∧
    (∀ g ∈ keptGroups jd, g.labels = none →
      dictGetOpt (renderGroup g) "labels" =
        Except.ok (some (Value.dict []))) ∧
    dictHas c "relabel_configs" = jd.relabelConfigs.isSome ∧
    dictHas c "metric_relabel_configs" = jd.metricRelabelConfigs.isSome := by
  have hc : c = renderJob name jd := by
    have hbuild := buildJobConfig_encode name jd
    rw [h] at hbuild
    by_cases hk : (keptGroups jd).isEmpty
    · simp [hk] at hbuild
    · simp [hk] at hbuild
      exact hbuild
  subst hc
  refine ⟨?_, ?_, ?_, ?_, ?_⟩
  · simp [renderJob, dictGetOpt, lookupKey]
  · intro g hg
    simp [renderGroup, dictHas]
  · intro g hg hnone
    simp [renderGroup, dictGetOpt, lookupKey, labelsOrEmpty, hnone]
  · cases hrl : jd.relabelConfigs <;>
      cases hmrl : jd.metricRelabelConfigs <;>
        simp [renderJob, dictHas, optEntry, hrl, hmrl]
  · cases hrl : jd.relabelConfigs <;>
      cases hmrl : jd.metricRelabelConfigs <;>
        simp [renderJob, dictHas, optEntry, hrl, hmrl]

/-- C10 witness: a descriptor whose single group has no labels and no relabel
structures renders with an explicit empty labels mapping and no relabel
keys. -/
theorem claim_C10_witness :
    dictGetOpt (renderJob "app-b" jdB) "static_configs" =
      Except.ok (some (Value.list ((keptGroups jdB).map renderGroup))) ∧
    (∀ g ∈ keptGroups jdB, dictHas (renderGroup g) "labels" = true) ∧
    (∀ g ∈ keptGroups jdB, g.labels = none →
      dictGetOpt (renderGroup g) "labels" =
        Except.ok (some (Value.dict []))) ∧
    dictHas (renderJob "app-b" jdB) "relabel_configs" =
      jdB.relabelConfigs.isSome ∧
    dictHas (renderJob "app-b" jdB) "metric_relabel_configs" =
      jdB.metricRelabelConfigs.isSome :=
  claim_C10_labels_always_present "app-b" jdB (renderJob "app-b" jdB)
    (by rw [buildJobConfig_encode]; rfl)

end PrometheusMachine
